import Mathlib

/-!
Shallow embedding of the Strava chat analysis workflow
(`backend/services/chat_workflow.py`, class `StravaWorkflow`).

LLM provider calls and dynamic code execution are modelled by an
environment (`Env`) of oracles: each provider call site is a field holding
the `Except`-style result of that call (`.error e` models a raised
exception whose textual rendering is `e`), and the two `exec` sites are
functions from the (fence-stripped) code string to either the captured
stdout (`.ok`) or the text of the raised exception (`.error`).  The mutable
`WorkflowState` dict threaded through the langgraph nodes is the
structure `WState`; the dataframe handle is read-only and only ever
reaches the oracles, so it is left implicit inside them.
-/

/-- Python `str.lower()` (ASCII range, which is all the workflow compares). -/
def pyLower (s : String) : String := String.mk (s.toList.map Char.toLower)

/-- The characters matched by the regex class `\s` used in the two
`re.sub` fence-stripping patterns (ASCII whitespace). -/
def isPySpace (c : Char) : Bool :=
  c = ' ' || c = '\t' || c = '\n' || c = '\r' || c = '\x0b' || c = '\x0c'

/-- The backtick character. -/
def backtick : Char := Char.ofNat 96

/-- A character matched by the alternation `(\s|backtick)` of the
fence-stripping regexes. -/
def isFenceChar (c : Char) : Bool := isPySpace c || c = backtick

/-- The letters of the optional language tag matched by `(?i:python)?`. -/
def pythonTag : List Char := "python".toList

/-- Effect of `re.sub(r"^(\s|BT)*(?i:python)?\s*", "", code)` (BT = backtick):
anchored at the start, so exactly one substitution happens: the maximal run
of whitespace/backticks is removed, then a case-insensitive `python` if
present, then maximal whitespace. -/
def stripLeadL (l : List Char) : List Char :=
  let l1 := l.dropWhile isFenceChar
  let l2 := if (l1.take 6).map Char.toLower = pythonTag then l1.drop 6 else l1
  l2.dropWhile isPySpace

/-- Effect of `re.sub(r"(\s|BT)*$", "", code)`: removes the maximal trailing
run of whitespace/backticks. -/
def stripTrailL (l : List Char) : List Char := l.rdropWhile isFenceChar

/-- The full fence-stripping transform applied by both executors
(`_analyze_data` lines 327-329 and `_graph_data` lines 213-215). -/
def stripCodeL (l : List Char) : List Char := stripTrailL (stripLeadL l)

/-- String-level wrapper for the fence-stripping transform. -/
def stripCodeStr (s : String) : String := String.mk (stripCodeL s.toList)

/-- The Python substring test `needle in hay`. -/
def containsSub (needle : List Char) : List Char → Bool
  | [] => needle.isEmpty
  | c :: rest => needle.isPrefixOf (c :: rest) || containsSub needle rest

/-- `"chart" in result.lower()` — the branch test of
`_analyze_query_conditional`. -/
def hasChartSub (r : String) : Bool := containsSub "chart".toList (pyLower r).toList

/-- The mutable `WorkflowState` TypedDict.  `messages` is the list of the
text contents of the chat turns (only the last is ever consulted). -/
structure WState where
  messages : List String
  enhanced_query : Option String := none
  chart_code : Option String := none
  chart_output : Option String := none
  overview : Option String := none
  code : Option String := none
  output : Option String := none
  response : Option String := none
  deriving Repr, DecidableEq

/-- Oracle environment: one field per provider call site / exec site of a
single workflow run.  `.error e` models the call raising an exception
whose textual rendering (`str(e)` or `repr(e)` as used at the site) is `e`. -/
structure Env where
  classifyResp : Except String String
  enhanceResp : Except String String
  genChartResp : Except String String
  genDataResp : Except String String
  judgeChartResp : Except String String
  fixChartResp : Except String String
  judgeDataResp : Except String String
  fixDataResp : Except String String
  synthResp : String → Except String String
  execDataCode : String → Except String String
  execChartCode : String → Except String String
  chartFileExists : Bool
  chartFileRead : Except String String
  memFigCapture : Except String String

/-- `_analyze_query`: only logs; the state passes through unchanged. -/
def analyzeQuery (st : WState) : WState := st

/-- `_enhance_query`: one provider call, NOT wrapped in try/except — a
raised exception propagates. -/
def enhanceQuery (env : Env) (st : WState) : Except String WState :=
  match env.enhanceResp with
  | .error e => .error e
  | .ok q => .ok { st with enhanced_query := some q }

/-- `_analyze_query_conditional`: one provider call (unguarded), then the
substring routing test on the lowercased response. -/
def analyzeQueryConditional (env : Env) : Except String String :=
  match env.classifyResp with
  | .error e => .error e
  | .ok r => .ok (if hasChartSub r then "prepare_graphs" else "prepare_data")

/-- `_prepare_graphs`: provider call wrapped in try/except; on failure a
comment placeholder is stored in `chart_code`. -/
def prepareGraphs (env : Env) (st : WState) : WState :=
  match env.genChartResp with
  | .ok c => { st with chart_code := some c }
  | .error e => { st with chart_code := some ("# Error generating chart code: " ++ e) }

/-- `_prepare_data`: provider call wrapped in try/except; on failure a
comment placeholder is stored in `code`. -/
def prepareData (env : Env) (st : WState) : WState :=
  match env.genDataResp with
  | .ok c => { st with code := some c }
  | .error e => { st with code := some ("# Error generating code: " ++ e) }

/-- `_verify_graphs`: a judgment call; if the lowercased feedback is not
exactly `"valid"`, one corrective call whose result replaces `chart_code`.
The second component counts the provider round trips made. -/
def verifyGraphsN (env : Env) (st : WState) : Except String (WState × Nat) :=
  match env.judgeChartResp with
  | .error e => .error e
  | .ok feedback =>
    if pyLower feedback = "valid" then .ok (st, 1)
    else
      match env.fixChartResp with
      | .error e => .error e
      | .ok c => .ok ({ st with chart_code := some c }, 2)

/-- `_verify_code`: same shape as `_verify_graphs`, acting on `code`. -/
def verifyCodeN (env : Env) (st : WState) : Except String (WState × Nat) :=
  match env.judgeDataResp with
  | .error e => .error e
  | .ok feedback =>
    if pyLower feedback = "valid" then .ok (st, 1)
    else
      match env.fixDataResp with
      | .error e => .error e
      | .ok c => .ok ({ st with code := some c }, 2)

/-- The failure message written by `_graph_data` when no chart bytes were
obtained: `f"Chart generation failed: {captured_output or 'No output captured'}"`. -/
def chartFailMsg (captured : String) : String :=
  "Chart generation failed: " ++ (if captured = "" then "No output captured" else captured)

/-- Lines 236-261 of `_graph_data`: the attempt to obtain the chart bytes
after the generated code ran.  If `chart.png` exists it is read and
encoded; if that read RAISES, the handler falls back to capturing the
current in-memory figure; a merely absent file leaves `chart_data` as
`None` (the `else` branch only logs), and the in-memory fallback is never
consulted in that case. -/
def chartDataRead (env : Env) : Option String :=
  if env.chartFileExists then
    match env.chartFileRead with
    | .ok d => some d
    | .error _ =>
      match env.memFigCapture with
      | .ok d => some d
      | .error _ => none
  else none

/-- `_graph_data`: whole body in try/except, so the node never raises.
On exec success the chart bytes are sought via `chartDataRead`; if none
were obtained the prefixed failure string is stored.  A `None`
`chart_code` makes `re.sub` raise a `TypeError` caught by the outer
handler. -/
def graphData (env : Env) (st : WState) : WState :=
  match st.chart_code with
  | none =>
      { st with chart_output := some "Error executing chart code: expected string or bytes-like object" }
  | some c0 =>
    match env.execChartCode (stripCodeStr c0) with
    | .error e => { st with chart_output := some ("Error executing chart code: " ++ e) }
    | .ok captured =>
      match chartDataRead env with
      | some d => { st with chart_output := some d }
      | none => { st with chart_output := some (chartFailMsg captured) }

/-- The single-quote character, used to spell Python `repr` text. -/
def squote : String := String.mk [Char.ofNat 39]

/-- `repr` of the `TypeError` that `re.sub` raises when handed `None`. -/
def noneCodeRepr : String :=
  "TypeError(" ++ squote ++ "expected string or bytes-like object" ++ squote ++ ")"

/-- `_analyze_data`: whole body in try/except.  Captured stdout goes to
`output` on success; on any exception `repr(e)` goes to `output` and the
node returns normally.  A `None` `code` makes `re.sub` raise a
`TypeError`, whose `repr` is stored by the same handler. -/
def analyzeData (env : Env) (st : WState) : WState :=
  match st.code with
  | none =>
      { st with output := some noneCodeRepr }
  | some c0 =>
    match env.execDataCode (stripCodeStr c0) with
    | .ok out => { st with output := some out }
    | .error e => { st with output := some e }

/-- Rendering of a Python value in an f-string: `None` or the string itself. -/
def pyStr : Option String → String
  | none => "None"
  | some s => s

/-- Rendering of a Python bool in an f-string. -/
def pyBool : Bool → String
  | true => "True"
  | false => "False"

/-- The content of `state["messages"][-1]` (the caller guards
non-emptiness; see `runGraph`). -/
def lastQuery (msgs : List String) : String := msgs.getLast?.getD ""

/-- The f-string prompt built by `_final_response`.  The execution results
enter only through `state["output"] is not None` and
`state["chart_output"] is not None`. -/
def finalPrompt (overview : Option String) (query : String)
    (output chart_output : Option String) : String :=
  "\n\n        Overview: " ++ pyStr overview ++
  "\n\n        You are a helpful assistant that generates a response to a user query based on the code output and the chart output.\n        Generate a response to the user query based on the code output and the chart output.\n        Respond in Markdown format.\n        Return only the response, be concise and to the point not conversational.\n        If an activity id is returned, include a link to the activity in the response. ex: https://www.strava.com/activities/##IDNUMBER##\n        Code output exists: " ++
  pyBool output.isSome ++
  "\n        Chart output exists: " ++ pyBool chart_output.isSome ++
  "\n        User query: " ++ query ++ "\n        "

/-- `_final_response`: one provider call on `finalPrompt` (unguarded). -/
def finalResponse (env : Env) (st : WState) : Except String WState :=
  match env.synthResp (finalPrompt st.overview (lastQuery st.messages) st.output st.chart_output) with
  | .error e => .error e
  | .ok r => .ok { st with response := some r }

/-- The compiled langgraph: `analyze_query` then `enhance_query`, then the
conditional routing, then generate/verify/execute on the chosen branch,
then `final_response`.  An empty `messages` list makes the very first
`state["messages"][-1]` raise `IndexError` (uncaught). -/
def runGraph (env : Env) (st0 : WState) : Except String WState :=
  match st0.messages.getLast? with
  | none => .error "IndexError: list index out of range"
  | some _ =>
    match enhanceQuery env (analyzeQuery st0) with
    | .error e => .error e
    | .ok st2 =>
      match analyzeQueryConditional env with
      | .error e => .error e
      | .ok branch =>
        if branch = "prepare_graphs" then
          match verifyGraphsN env (prepareGraphs env st2) with
          | .error e => .error e
          | .ok (st4, _) => finalResponse env (graphData env st4)
        else
          match verifyCodeN env (prepareData env st2) with
          | .error e => .error e
          | .ok (st4, _) => finalResponse env (analyzeData env st4)

/-- The dataset overview literal placed into the initial state by
`run_workflow`. -/
def overviewText : String :=
  "The dataset is a pandas dataframe with the following columns:\n            - id: a unique identifier for the activity\n            - start_date: the date and time of the activity (NOT a datetime object, just a string)\n            - name: the name of the activity\n            - distance: the distance of the activity in miles\n            - moving_time: the time the activity took to complete in minutes\n            - elapsed_time: the total time elapsed in minutes\n            - total_elevation_gain: the total elevation gain of the activity in feet\n            - start_date_local: the date and time of the activity in the local timezone\n            - average_speed: the average speed of the activity in minutes per mile\n            - max_speed: the maximum speed of the activity in minutes per mile\n            - average_cadence: the average cadence of the activity in steps per minute\n            - average_heartrate: the average heartrate of the activity in beats per minute\n            - max_heartrate: the maximum heartrate of the activity in beats per minute\n            - suffer_score: the suffer score of the activity (a measure of how hard the activity was)\n            - year: the year of the activity\n            - month: the month of the activity\n            - day: the day of the activity\n            - day_of_week: the day of the week of the activity\n            - time: the time of the activity hh:mm:ss"

/-- The initial `WorkflowState` built by `run_workflow` (the
`enhanced_query` key is simply absent, i.e. `none`). -/
def initState (messages : List String) : WState :=
  { messages := messages
    enhanced_query := none
    chart_code := none
    chart_output := none
    overview := some overviewText
    code := none
    output := none
    response := none }

/-- The string-prefix success test applied to `chart_output` at the end of
`run_workflow`. -/
def chartGenerated (co : Option String) : Bool :=
  match co with
  | none => false
  | some s =>
    !(s.startsWith "Chart generation failed") && !(s.startsWith "Error executing chart code")

/-- The record returned by `run_workflow`. -/
structure RunResult where
  query : String
  code_output : Option String
  chart_generated : Bool
  chart_url : Option String
  response : Option String
  status : String
  deriving Repr, DecidableEq

/-- `run_workflow`: builds the initial state, invokes the graph, and
assembles the result record with the hard-coded `"success"` status. -/
def runWorkflow (env : Env) (messages : List String) : Except String RunResult :=
  match runGraph env (initState messages) with
  | .error e => .error e
  | .ok final =>
    .ok { query := lastQuery messages
          code_output := final.output
          chart_generated := chartGenerated final.chart_output
          chart_url := if chartGenerated final.chart_output then some "/chart.png" else none
          response := final.response
          status := "success" }

/-! ## Helper lemmas -/

theorem containsSub_iff_infix (n : List Char) (h : List Char) :
    containsSub n h = true ↔ n <:+: h := by
  induction h with
  | nil => simp [containsSub, List.isEmpty_iff, List.infix_nil]
  | cons c rest ih =>
    simp [containsSub, Bool.or_eq_true, ih, List.infix_cons_iff,
       List.isPrefixOf_iff_prefix]

/-- A baseline fully-successful oracle environment, specialised per
witness below. -/
def envBase : Env :=
  { classifyResp := Except.ok "data"
    enhanceResp := Except.ok "enhanced query"
    genChartResp := Except.ok "chartcode"
    genDataResp := Except.ok "print(1)"
    judgeChartResp := Except.ok "valid"
    fixChartResp := Except.ok "fixed chart code"
    judgeDataResp := Except.ok "valid"
    fixDataResp := Except.ok "fixed data code"
    synthResp := fun _ => Except.ok "answer"
    execDataCode := fun _ => Except.ok "42\n"
    execChartCode := fun _ => Except.ok ""
    chartFileExists := true
    chartFileRead := Except.ok "B64DATA"
    memFigCapture := Except.ok "MEMB64" }

/-! ## C10 — the branch decision is a substring test -/

/-- C10: for every classification response `r`, the conditional routes to
the chart branch exactly when the lowercased `r` contains `"chart"` as a
substring, and otherwise to the data branch; the test is substring
containment, not exact match. -/
theorem c10_branch_substring_test (env : Env) (r : String)
    (h : env.classifyResp = Except.ok r) :
    analyzeQueryConditional env =
      Except.ok (if hasChartSub r then "prepare_graphs" else "prepare_data") ∧
    (hasChartSub r = true ↔ "chart".toList <:+: (pyLower r).toList) := by
  constructor
  · simp [analyzeQueryConditional, h]
  · exact containsSub_iff_infix _ _

def envC10 : Env := { envBase with classifyResp := Except.ok "this is not a chart request" }

theorem c10_branch_substring_test_witness :
    envC10.classifyResp = Except.ok "this is not a chart request" ∧
    (analyzeQueryConditional envC10 =
      Except.ok (if hasChartSub "this is not a chart request" then "prepare_graphs"
        else "prepare_data") ∧
     (hasChartSub "this is not a chart request" = true ↔
       "chart".toList <:+: (pyLower "this is not a chart request").toList)) :=
  ⟨rfl, c10_branch_substring_test envC10 "this is not a chart request" rfl⟩

/-! ## C9 — the synthesizer prompt sees only existence flags -/

/-- C9: the prompt built by `_final_response` depends on the execution
results only through the two existence flags: states that differ only in
the non-null contents of `output` and `chart_output` produce byte-identical
prompts. -/
theorem c9_final_prompt_flags_only (ov : Option String) (q : String)
    (o1 c1 o2 c2 : Option String)
    (ho : o1.isSome = o2.isSome) (hc : c1.isSome = c2.isSome) :
    finalPrompt ov q o1 c1 = finalPrompt ov q o2 c2 := by
  simp only [finalPrompt, ho, hc]

theorem c9_final_prompt_flags_only_witness :
    (some "total: 24.1" : Option String).isSome = (some "secret payload" : Option String).isSome ∧
    (some "AAAA" : Option String).isSome = (some "BBBB" : Option String).isSome ∧
    finalPrompt (some overviewText) "my query" (some "total: 24.1") (some "AAAA") =
      finalPrompt (some overviewText) "my query" (some "secret payload") (some "BBBB") :=
  ⟨rfl, rfl,
    c9_final_prompt_flags_only (some overviewText) "my query"
      (some "total: 24.1") (some "AAAA") (some "secret payload") (some "BBBB") rfl rfl⟩

/-! ## C2 — each verify step issues at most 2 provider round trips -/

/-- C2: each verify node makes one judgment call, and exactly when the
lowercased judgment differs from the exact token `"valid"` it makes one
corrective call whose result replaces the stored code; the pair and the
round-trip count are fully determined, with count 1 or 2, and the
corrected code is returned without any further verification call. -/
theorem c2_verify_at_most_two_roundtrips (env : Env) (st : WState)
    (f g cd cc : String)
    (hjd : env.judgeDataResp = Except.ok f)
    (hjc : env.judgeChartResp = Except.ok g)
    (hfd : env.fixDataResp = Except.ok cd)
    (hfc : env.fixChartResp = Except.ok cc) :
    verifyCodeN env st =
      Except.ok (if pyLower f = "valid" then (st, 1)
        else ({ st with code := some cd }, 2)) ∧
    verifyGraphsN env st =
      Except.ok (if pyLower g = "valid" then (st, 1)
        else ({ st with chart_code := some cc }, 2)) := by
  constructor
  · by_cases hv : pyLower f = "valid" <;>
      simp [verifyCodeN, hjd, hfd, hv]
  · by_cases hv : pyLower g = "valid" <;>
      simp [verifyGraphsN, hjc, hfc, hv]

def envC2 : Env :=
  { envBase with
    judgeDataResp := Except.ok "VALID"
    judgeChartResp := Except.ok "the axes are wrong"
    fixChartResp := Except.ok "regenerated chart code" }

theorem c2_verify_at_most_two_roundtrips_witness :
    envC2.judgeDataResp = Except.ok "VALID" ∧
    envC2.judgeChartResp = Except.ok "the axes are wrong" ∧
    (verifyCodeN envC2 (initState ["q"]) =
      Except.ok (if pyLower "VALID" = "valid" then ((initState ["q"]), 1)
        else ({ initState ["q"] with code := some "fixed data code" }, 2)) ∧
     verifyGraphsN envC2 (initState ["q"]) =
      Except.ok (if pyLower "the axes are wrong" = "valid" then ((initState ["q"]), 1)
        else ({ initState ["q"] with chart_code := some "regenerated chart code" }, 2))) :=
  ⟨rfl, rfl,
    c2_verify_at_most_two_roundtrips envC2 (initState ["q"])
      "VALID" "the axes are wrong" "fixed data code" "regenerated chart code"
      rfl rfl rfl rfl⟩

/-! ## C7 — generators degrade provider failure to a comment placeholder -/

/-- C7: when the provider call of either generator raises, the node
catches it and stores a comment-only placeholder (starting with the
character `#`) in the corresponding code field, and returns normally. -/
theorem c7_generator_comment_placeholder (env : Env) (st : WState)
    (e1 e2 : String)
    (h1 : env.genDataResp = Except.error e1)
    (h2 : env.genChartResp = Except.error e2) :
    prepareData env st = { st with code := some ("# Error generating code: " ++ e1) } ∧
    prepareGraphs env st =
      { st with chart_code := some ("# Error generating chart code: " ++ e2) } ∧
    ("# Error generating code: " ++ e1).toList.head? = some '#' ∧
    ("# Error generating chart code: " ++ e2).toList.head? = some '#' := by
  refine ⟨?_, ?_, rfl, rfl⟩
  · simp [prepareData, h1]
  · simp [prepareGraphs, h2]

def envC7 : Env :=
  { envBase with
    genDataResp := Except.error "APITimeoutError"
    genChartResp := Except.error "RateLimitError" }

theorem c7_generator_comment_placeholder_witness :
    envC7.genDataResp = Except.error "APITimeoutError" ∧
    envC7.genChartResp = Except.error "RateLimitError" ∧
    (prepareData envC7 (initState ["q"]) =
      { initState ["q"] with code := some ("# Error generating code: " ++ "APITimeoutError") } ∧
     prepareGraphs envC7 (initState ["q"]) =
      { initState ["q"] with
          chart_code := some ("# Error generating chart code: " ++ "RateLimitError") } ∧
     ("# Error generating code: " ++ "APITimeoutError").toList.head? = some '#' ∧
     ("# Error generating chart code: " ++ "RateLimitError").toList.head? = some '#') :=
  ⟨rfl, rfl,
    c7_generator_comment_placeholder envC7 (initState ["q"])
      "APITimeoutError" "RateLimitError" rfl rfl⟩

/-! ## C6 — the enhancer does NOT absorb provider failure -/

def envC6 : Env := { envBase with enhanceResp := Except.error "APIConnectionError" }

/-- C6 counterexample: with a raising provider at the enhancer call site,
the enhancer node itself propagates the exception and the whole workflow
aborts with it — no placeholder is written into `enhanced_query` and no
downstream generation happens, contrary to the claim. -/
theorem c6_counterexample :
    enhanceQuery envC6 (initState ["What is my total distance?"]) =
      Except.error "APIConnectionError" ∧
    runWorkflow envC6 ["What is my total distance?"] =
      Except.error "APIConnectionError" := by
  constructor <;> rfl

/-- C6 amended: if the provider call made by the Query Enhancer raises,
the exception propagates uncaught — the workflow run aborts with that very
exception and no placeholder is written (unlike the two code generators,
the enhancer has no try/except). -/
theorem c6_amended_enhancer_propagates (env : Env) (msgs : List String)
    (e : String) (hm : msgs ≠ []) (h : env.enhanceResp = Except.error e) :
    runWorkflow env msgs = Except.error e := by
  have hL : msgs.getLast?.isSome := List.getLast?_isSome.mpr hm
  obtain ⟨q0, hq0⟩ := Option.isSome_iff_exists.mp hL
  simp [runWorkflow, runGraph, initState, analyzeQuery, enhanceQuery, hq0, h]

theorem c6_amended_enhancer_propagates_witness :
    (["What is my total distance?"] : List String) ≠ [] ∧
    envC6.enhanceResp = Except.error "APIConnectionError" ∧
    runWorkflow envC6 ["What is my total distance?"] = Except.error "APIConnectionError" :=
  ⟨by decide, rfl,
    c6_amended_enhancer_propagates envC6 ["What is my total distance?"]
      "APIConnectionError" (by decide) rfl⟩

/-! ## C1 — data-branch execution errors are caught; status stays success -/

/-- C1: in a data-branch run whose generated code raises at execution, the
exception is caught inside `_analyze_data` — its textual representation
becomes `output` (surfacing as `code_output`) — the workflow completes
normally, and the record returned by `run_workflow` carries the hard-coded
`"success"` status. -/
theorem c1_data_exec_error_caught (env : Env) (msgs : List String)
    (q r g f sresp e : String)
    (hm : msgs ≠ [])
    (he : env.enhanceResp = Except.ok q)
    (hr : env.classifyResp = Except.ok r)
    (hch : hasChartSub r = false)
    (hg : env.genDataResp = Except.ok g)
    (hf : env.judgeDataResp = Except.ok f)
    (hv : pyLower f = "valid")
    (hx : env.execDataCode (stripCodeStr g) = Except.error e)
    (hs : ∀ p, env.synthResp p = Except.ok sresp) :
    runWorkflow env msgs =
      Except.ok { query := lastQuery msgs
                  code_output := some e
                  chart_generated := false
                  chart_url := none
                  response := some sresp
                  status := "success" } := by
  have hL : msgs.getLast?.isSome := List.getLast?_isSome.mpr hm
  obtain ⟨q0, hq0⟩ := Option.isSome_iff_exists.mp hL
  simp [runWorkflow, runGraph, initState, analyzeQuery, enhanceQuery, he, hq0,
    analyzeQueryConditional, hr, hch, prepareData, hg, verifyCodeN, hf, hv,
    analyzeData, hx, finalResponse, hs, chartGenerated, lastQuery]

def errRepr : String :=
  "ZeroDivisionError(" ++ squote ++ "division by zero" ++ squote ++ ")"

def envC1 : Env := { envBase with execDataCode := fun _ => Except.error errRepr }

theorem c1_data_exec_error_caught_witness :
    runWorkflow envC1 ["What was my longest run?"] =
      Except.ok { query := lastQuery ["What was my longest run?"]
                  code_output := some errRepr
                  chart_generated := false
                  chart_url := none
                  response := some "answer"
                  status := "success" } :=
  c1_data_exec_error_caught envC1 ["What was my longest run?"] "enhanced query" "data"
    "print(1)" "valid" "answer" errRepr (by decide) rfl rfl (by decide) rfl rfl rfl rfl
    (fun _ => rfl)

/-! ## C3 — chart_generated is exactly the string-prefix check -/

/-- C3: the `chart_generated` field of the result record equals the
prefix test on the final `chart_output` — true exactly when `chart_output`
is non-null and starts with neither recognized failure prefix — and the
rest of the record (including `chart_url`) is derived from that same
boolean, which is the only success/failure signal computed. -/
theorem c3_chart_generated_prefix_only (env : Env) (msgs : List String)
    (final : WState) (h : runGraph env (initState msgs) = Except.ok final) :
    runWorkflow env msgs =
      Except.ok { query := lastQuery msgs
                  code_output := final.output
                  chart_generated := chartGenerated final.chart_output
                  chart_url :=
                    if chartGenerated final.chart_output then some "/chart.png" else none
                  response := final.response
                  status := "success" } ∧
    (chartGenerated final.chart_output = true ↔
      ∃ s, final.chart_output = some s ∧
        s.startsWith "Chart generation failed" = false ∧
        s.startsWith "Error executing chart code" = false) := by
  constructor
  · simp [runWorkflow, h]
  · cases hco : final.chart_output with
    | none => simp [chartGenerated]
    | some s => simp [chartGenerated, Bool.and_eq_true, Bool.not_eq_true']

def envC3 : Env := { envBase with classifyResp := Except.ok "chart" }

def finalC3 : WState :=
  { messages := ["Show me a chart of my runs"]
    enhanced_query := some "enhanced query"
    chart_code := some "chartcode"
    chart_output := some "B64DATA"
    overview := some overviewText
    code := none
    output := none
    response := some "answer" }

theorem c3_chart_generated_prefix_only_witness :
    runGraph envC3 (initState ["Show me a chart of my runs"]) = Except.ok finalC3 ∧
    (runWorkflow envC3 ["Show me a chart of my runs"] =
      Except.ok { query := lastQuery ["Show me a chart of my runs"]
                  code_output := finalC3.output
                  chart_generated := chartGenerated finalC3.chart_output
                  chart_url :=
                    if chartGenerated finalC3.chart_output then some "/chart.png" else none
                  response := finalC3.response
                  status := "success" } ∧
     (chartGenerated finalC3.chart_output = true ↔
       ∃ s, finalC3.chart_output = some s ∧
         s.startsWith "Chart generation failed" = false ∧
         s.startsWith "Error executing chart code" = false)) :=
  ⟨rfl, c3_chart_generated_prefix_only envC3 ["Show me a chart of my runs"] finalC3 rfl⟩

/-! ## C4 — exactly one of chart_output / output at completion -/

theorem enhanceQuery_fields (env : Env) (st st' : WState)
    (h : enhanceQuery env st = Except.ok st') :
    st'.output = st.output ∧ st'.chart_output = st.chart_output := by
  unfold enhanceQuery at h
  cases he : env.enhanceResp <;> rw [he] at h <;> simp_all
  subst h; simp

theorem prepareGraphs_fields (env : Env) (st : WState) :
    (prepareGraphs env st).output = st.output ∧
    (prepareGraphs env st).chart_output = st.chart_output := by
  cases h : env.genChartResp <;> simp [prepareGraphs, h]

theorem prepareData_fields (env : Env) (st : WState) :
    (prepareData env st).output = st.output ∧
    (prepareData env st).chart_output = st.chart_output := by
  cases h : env.genDataResp <;> simp [prepareData, h]

theorem verifyGraphsN_fields (env : Env) (st st' : WState) (n : Nat)
    (h : verifyGraphsN env st = Except.ok (st', n)) :
    st'.output = st.output ∧ st'.chart_output = st.chart_output := by
  unfold verifyGraphsN at h
  cases hj : env.judgeChartResp with
  | error e => rw [hj] at h; simp at h
  | ok f =>
    rw [hj] at h
    by_cases hv : pyLower f = "valid"
    · simp [hv] at h
      obtain ⟨h1, -⟩ := h
      subst h1
      exact ⟨rfl, rfl⟩
    · cases hf : env.fixChartResp with
      | error e => simp [hv, hf] at h
      | ok c =>
        simp [hv, hf] at h
        obtain ⟨h1, -⟩ := h
        subst h1
        exact ⟨rfl, rfl⟩

theorem verifyCodeN_fields (env : Env) (st st' : WState) (n : Nat)
    (h : verifyCodeN env st = Except.ok (st', n)) :
    st'.output = st.output ∧ st'.chart_output = st.chart_output := by
  unfold verifyCodeN at h
  cases hj : env.judgeDataResp with
  | error e => rw [hj] at h; simp at h
  | ok f =>
    rw [hj] at h
    by_cases hv : pyLower f = "valid"
    · simp [hv] at h
      obtain ⟨h1, -⟩ := h
      subst h1
      exact ⟨rfl, rfl⟩
    · cases hf : env.fixDataResp with
      | error e => simp [hv, hf] at h
      | ok c =>
        simp [hv, hf] at h
        obtain ⟨h1, -⟩ := h
        subst h1
        exact ⟨rfl, rfl⟩

theorem graphData_fields (env : Env) (st : WState) :
    (graphData env st).output = st.output ∧
    (graphData env st).chart_output.isSome = true := by
  unfold graphData
  cases hc : st.chart_code with
  | none => simp
  | some c0 =>
    cases hx : env.execChartCode (stripCodeStr c0) with
    | error e => simp [hx]
    | ok cap =>
      cases hd : chartDataRead env with
      | none => simp [hx, hd]
      | some d => simp [hx, hd]

theorem analyzeData_fields (env : Env) (st : WState) :
    (analyzeData env st).chart_output = st.chart_output ∧
    (analyzeData env st).output.isSome = true := by
  unfold analyzeData
  cases hc : st.code with
  | none => simp
  | some c0 =>
    cases hx : env.execDataCode (stripCodeStr c0) with
    | error e => simp [hx]
    | ok out => simp [hx]

theorem finalResponse_fields (env : Env) (st st' : WState)
    (h : finalResponse env st = Except.ok st') :
    st'.output = st.output ∧ st'.chart_output = st.chart_output := by
  unfold finalResponse at h
  cases hs : env.synthResp (finalPrompt st.overview (lastQuery st.messages) st.output st.chart_output) with
  | error e => rw [hs] at h; simp at h
  | ok rr =>
    rw [hs] at h
    simp at h
    subst h
    exact ⟨rfl, rfl⟩

/-- C4: a completed run populates exactly one of `chart_output` and
`output`, and the populated one matches the branch that the classification
response selected: a chart-classified run ends with `chart_output`
populated and `output` still null, a data-classified run the reverse. -/
theorem c4_exactly_one_output_populated (env : Env) (msgs : List String)
    (final : WState) (r : String)
    (h : runGraph env (initState msgs) = Except.ok final)
    (hr : env.classifyResp = Except.ok r) :
    (hasChartSub r = true → final.chart_output.isSome = true ∧ final.output = none) ∧
    (hasChartSub r = false → final.output.isSome = true ∧ final.chart_output = none) := by
  unfold runGraph at h
  cases hq0 : (initState msgs).messages.getLast? <;> rw [hq0] at h
  · simp at h
  · simp only [analyzeQuery] at h
    cases hE : enhanceQuery env (initState msgs) with
    | error e => rw [hE] at h; simp at h
    | ok st2 =>
      rw [hE] at h
      have hst2 := enhanceQuery_fields env _ _ hE
      have hst2o : st2.output = none := by rw [hst2.1]; rfl
      have hst2c : st2.chart_output = none := by rw [hst2.2]; rfl
      simp only [analyzeQueryConditional, hr] at h
      by_cases hch : hasChartSub r = true
      · simp only [hch, if_true, reduceIte] at h
        cases hV : verifyGraphsN env (prepareGraphs env st2) with
        | error e => rw [hV] at h; simp at h
        | ok p =>
          rw [hV] at h
          obtain ⟨st4, n⟩ := p
          simp only [] at h
          have h4 := verifyGraphsN_fields env _ _ _ hV
          have hg := graphData_fields env st4
          have hf := finalResponse_fields env _ _ h
          have hpg := prepareGraphs_fields env st2
          refine ⟨fun _ => ⟨?_, ?_⟩, fun hch' => absurd (hch' ▸ hch) (by simp)⟩
          · rw [hf.2]; exact hg.2
          · rw [hf.1, hg.1, h4.1, hpg.1, hst2o]
      · rw [Bool.not_eq_true] at hch
        simp only [hch, Bool.false_eq_true, if_false, reduceIte] at h
        cases hV : verifyCodeN env (prepareData env st2) with
        | error e => rw [hV] at h; simp at h
        | ok p =>
          rw [hV] at h
          obtain ⟨st4, n⟩ := p
          simp only [] at h
          have h4 := verifyCodeN_fields env _ _ _ hV
          have ha := analyzeData_fields env st4
          have hf := finalResponse_fields env _ _ h
          have hpd := prepareData_fields env st2
          refine ⟨fun hch' => absurd (hch ▸ hch') (by simp), fun _ => ⟨?_, ?_⟩⟩
          · rw [hf.1]; exact ha.2
          · rw [hf.2, ha.1, h4.2, hpd.2, hst2c]

theorem c4_exactly_one_output_populated_witness :
    (hasChartSub "chart" = true →
      finalC3.chart_output.isSome = true ∧ finalC3.output = none) ∧
    (hasChartSub "chart" = false →
      finalC3.output.isSome = true ∧ finalC3.chart_output = none) :=
  c4_exactly_one_output_populated envC3 ["Show me a chart of my runs"] finalC3 "chart"
    rfl rfl

/-! ## C5 — when the in-memory figure fallback actually runs -/

def envC5 : Env := { envBase with chartFileExists := false }

def stC5 : WState := { initState ["Plot my runs"] with chart_code := some "plotcode" }

/-- C5 counterexample: the chart artifact file is absent
(`os.path.exists` returns `False`, nothing raises) and the in-memory
capture oracle would succeed with `"MEMB64"`, yet `_graph_data` writes the
failure string and never the captured figure: the fallback is NOT taken on
a merely absent file, contrary to the claim. -/
theorem c5_counterexample :
    envC5.chartFileExists = false ∧
    envC5.memFigCapture = Except.ok "MEMB64" ∧
    (graphData envC5 stC5).chart_output =
      some "Chart generation failed: No output captured" ∧
    (graphData envC5 stC5).chart_output ≠ some "MEMB64" := by
  refine ⟨rfl, rfl, rfl, ?_⟩
  decide

/-- C5 amended: after a successful code execution, `_graph_data` reads the
artifact only if the file exists; the in-memory figure capture runs ONLY
when that read raises (e.g. read-only storage), and the prefixed failure
string is written when the file is simply absent — without consulting the
in-memory fallback — or when both the read and the capture raise. -/
theorem c5_amended_fallback_only_on_read_error (env : Env) (st : WState)
    (c out : String)
    (hc : st.chart_code = some c)
    (hx : env.execChartCode (stripCodeStr c) = Except.ok out) :
    (graphData env st).chart_output = some (
      if env.chartFileExists then
        match env.chartFileRead with
        | .ok d => d
        | .error _ =>
          match env.memFigCapture with
          | .ok d => d
          | .error _ => chartFailMsg out
      else chartFailMsg out) := by
  unfold graphData chartDataRead
  rw [hc]
  cases hfe : env.chartFileExists with
  | false => simp [hx, hfe]
  | true =>
    cases hfr : env.chartFileRead with
    | ok d => simp [hx, hfe, hfr]
    | error e =>
      cases hm : env.memFigCapture with
      | ok d => simp [hx, hfe, hfr, hm]
      | error e2 => simp [hx, hfe, hfr, hm]

def envC5w : Env := { envBase with chartFileRead := Except.error "PermissionError" }

theorem c5_amended_fallback_only_on_read_error_witness :
    stC5.chart_code = some "plotcode" ∧
    envC5w.execChartCode (stripCodeStr "plotcode") = Except.ok "" ∧
    (graphData envC5w stC5).chart_output = some (
      if envC5w.chartFileExists then
        match envC5w.chartFileRead with
        | .ok d => d
        | .error _ =>
          match envC5w.memFigCapture with
          | .ok d => d
          | .error _ => chartFailMsg ""
      else chartFailMsg "") :=
  ⟨rfl, rfl,
    c5_amended_fallback_only_on_read_error envC5w stC5 "plotcode" "" rfl rfl⟩

/-! ## C8 — fence stripping on wrapped versus unwrapped code -/

/-- The triple-backtick fence marker. -/
def fenceL : List Char := [backtick, backtick, backtick]

/-- A code string wrapped in leading/trailing triple backticks with an
optional language tag and surrounding whitespace, as quantified by the
claim. -/
def fencedWrap (tag w1 w2 w3 w4 s : List Char) : List Char :=
  w1 ++ fenceL ++ tag ++ w2 ++ s ++ (w3 ++ fenceL ++ w4)

theorem dropWhile_append_all {p : Char → Bool} {xs : List Char} (ys : List Char)
    (h : ∀ c ∈ xs, p c = true) :
    (xs ++ ys).dropWhile p = ys.dropWhile p := by
  induction xs with
  | nil => simp
  | cons a l ih =>
    rw [List.cons_append, List.dropWhile_cons, if_pos (h a (List.mem_cons_self a l))]
    exact ih (fun c hc => h c (List.mem_cons_of_mem a hc))

theorem rdropWhile_append_all (l : List Char) {xs : List Char}
    (h : ∀ c ∈ xs, isFenceChar c = true) :
    (l ++ xs).rdropWhile isFenceChar = l.rdropWhile isFenceChar := by
  unfold List.rdropWhile
  rw [List.reverse_append, dropWhile_append_all _ (fun c hc => h c (List.mem_reverse.mp hc))]

theorem isPySpace_isFence {c : Char} (h : isPySpace c = true) : isFenceChar c = true := by
  simp [isFenceChar, h]

theorem fenceL_all_fence : ∀ c ∈ fenceL, isFenceChar c = true := by decide

theorem fence_toLower_not_python {c : Char} (h : isFenceChar c = true) :
    Char.toLower c ∉ pythonTag := by
  simp only [isFenceChar, isPySpace, backtick, Bool.or_eq_true, decide_eq_true_eq] at h
  rcases h with (((((h | h) | h) | h) | h) | h) | h <;> subst h <;> decide

theorem no_python_prefix (s R : List Char)
    (hs2 : (s.take 6).map Char.toLower ≠ pythonTag)
    (hR : ∃ rc rt, R = rc :: rt ∧ isFenceChar rc = true) :
    ((s ++ R).take 6).map Char.toLower ≠ pythonTag := by
  intro hcon
  obtain ⟨rc, rt, hRe, hrc⟩ := hR
  by_cases hlen : 6 ≤ s.length
  · rw [List.take_append_of_le_length hlen] at hcon
    exact hs2 hcon
  · push_neg at hlen
    rw [List.take_append_eq_append_take,
      List.take_of_length_le (Nat.le_of_lt hlen)] at hcon
    have hmem : Char.toLower rc ∈ ((s ++ R.take (6 - s.length)).map Char.toLower) := by
      apply List.mem_map_of_mem
      apply List.mem_append.mpr
      right
      obtain ⟨m, hm⟩ : ∃ m, 6 - s.length = m + 1 :=
        ⟨6 - s.length - 1, by omega⟩
      rw [hRe, hm, List.take_succ_cons]
      exact List.mem_cons_self rc _
    rw [hcon] at hmem
    exact fence_toLower_not_python hrc hmem

theorem stripLeadL_eq (l : List Char) :
    stripLeadL l =
      (if ((l.dropWhile isFenceChar).take 6).map Char.toLower = pythonTag
        then (l.dropWhile isFenceChar).drop 6
        else l.dropWhile isFenceChar).dropWhile isPySpace := rfl

theorem stripTrailL_append_all (l : List Char) {xs : List Char}
    (h : ∀ c ∈ xs, isFenceChar c = true) :
    stripTrailL (l ++ xs) = stripTrailL l :=
  rdropWhile_append_all l h

/-- C8 amended: the fenced and unwrapped variants strip to the same string
for every code string `s` that the leading regex leaves untouched, i.e.
`s` does not begin with whitespace, a backtick, or a case-insensitive
`python` prefix; arbitrary surrounding whitespace and an optional
language tag are allowed in the wrapping.  (Without that proviso the
equality fails, see the counterexample.) -/
theorem c8_amended_fence_strip_eq (tag w1 w2 w3 w4 s : List Char)
    (htag : tag = [] ∨ tag = pythonTag)
    (hw1 : ∀ c ∈ w1, isPySpace c = true)
    (hw2 : ∀ c ∈ w2, isPySpace c = true)
    (hw3 : ∀ c ∈ w3, isPySpace c = true)
    (hw4 : ∀ c ∈ w4, isPySpace c = true)
    (hs1 : s.dropWhile isFenceChar = s)
    (hs2 : (s.take 6).map Char.toLower ≠ pythonTag) :
    stripCodeL (fencedWrap tag w1 w2 w3 w4 s) = stripCodeL s := by
  have hw1f : ∀ c ∈ w1, isFenceChar c = true := fun c hc => isPySpace_isFence (hw1 c hc)
  have hw2f : ∀ c ∈ w2, isFenceChar c = true := fun c hc => isPySpace_isFence (hw2 c hc)
  have hRf : ∀ x ∈ w3 ++ (fenceL ++ w4), isFenceChar x = true := by
    intro x hx
    simp only [List.mem_append] at hx
    rcases hx with hx | hx | hx
    · exact isPySpace_isFence (hw3 x hx)
    · exact fenceL_all_fence x hx
    · exact isPySpace_isFence (hw4 x hx)
  have hRcons : ∃ rc rt, w3 ++ (fenceL ++ w4) = rc :: rt ∧ isFenceChar rc = true := by
    cases w3 with
    | nil => exact ⟨backtick, backtick :: backtick :: w4, rfl, by decide⟩
    | cons a w3' =>
      exact ⟨a, w3' ++ (fenceL ++ w4), rfl,
        isPySpace_isFence (hw3 a (List.mem_cons_self a w3'))⟩
  have hW : fencedWrap tag w1 w2 w3 w4 s =
      w1 ++ (fenceL ++ (tag ++ (w2 ++ (s ++ (w3 ++ (fenceL ++ w4)))))) := by
    unfold fencedWrap
    simp [List.append_assoc]
  cases s with
  | nil =>
    rcases htag with htag | htag <;> subst htag
    · unfold stripCodeL
      rw [stripLeadL_eq, hW]
      rw [dropWhile_append_all _ hw1f, dropWhile_append_all _ fenceL_all_fence]
      simp only [List.nil_append]
      rw [dropWhile_append_all _ hw2f, dropWhile_append_all _
        (fun c hc => isPySpace_isFence (hw3 c hc))]
      have hFW : ∀ x ∈ fenceL ++ w4, isFenceChar x = true := by
        intro x hx
        rcases List.mem_append.mp hx with hx | hx
        · exact fenceL_all_fence x hx
        · exact isPySpace_isFence (hw4 x hx)
      rw [List.dropWhile_eq_nil_iff.mpr hFW, if_neg (by decide)]
      rfl
    · unfold stripCodeL
      rw [stripLeadL_eq, hW]
      rw [dropWhile_append_all _ hw1f, dropWhile_append_all _ fenceL_all_fence]
      have hsplit : pythonTag ++ (w2 ++ ([] ++ (w3 ++ (fenceL ++ w4)))) =
          'p' :: ("ython".toList ++ (w2 ++ ([] ++ (w3 ++ (fenceL ++ w4))))) := rfl
      have hp : ¬ (isFenceChar 'p' = true) := by decide
      have h6 : pythonTag.length = 6 := rfl
      have hpos : pythonTag.map Char.toLower = pythonTag := by decide
      rw [hsplit, List.dropWhile_cons, if_neg hp, ← hsplit,
        List.take_left' h6, if_pos hpos, List.drop_left' h6,
        dropWhile_append_all _ hw2]
      simp only [List.nil_append]
      rw [dropWhile_append_all _ hw3]
      rw [show fenceL ++ w4 = backtick :: (backtick :: backtick :: w4) from rfl,
        List.dropWhile_cons, if_neg (by decide)]
      have hFW : ∀ x ∈ backtick :: (backtick :: backtick :: w4), isFenceChar x = true := by
        intro x hx
        simp only [List.mem_cons] at hx
        rcases hx with h | h | h | h
        · subst h; decide
        · subst h; decide
        · subst h; decide
        · exact isPySpace_isFence (hw4 x h)
      unfold stripTrailL
      rw [List.rdropWhile_eq_nil_iff.mpr hFW]
      rfl
  | cons c s' =>
    have hcf : isFenceChar c = false := by
      have h0 := List.dropWhile_eq_self_iff.mp hs1 (by simp)
      simpa using h0
    have hcs : isPySpace c = false := by
      cases hps : isPySpace c
      · rfl
      · rw [isPySpace_isFence hps] at hcf
        exact absurd hcf (by simp)
    have hleadS : stripLeadL (c :: s') = c :: s' := by
      rw [stripLeadL_eq, hs1, if_neg hs2, List.dropWhile_cons, if_neg (by simp [hcs])]
    have hdropR : ((c :: s') ++ (w3 ++ (fenceL ++ w4))).dropWhile isFenceChar =
        (c :: s') ++ (w3 ++ (fenceL ++ w4)) := by
      rw [List.cons_append, List.dropWhile_cons, if_neg (by simp [hcf]), ← List.cons_append]
    have hdropRs : ((c :: s') ++ (w3 ++ (fenceL ++ w4))).dropWhile isPySpace =
        (c :: s') ++ (w3 ++ (fenceL ++ w4)) := by
      rw [List.cons_append, List.dropWhile_cons, if_neg (by simp [hcs]), ← List.cons_append]
    have hpyW : (((c :: s') ++ (w3 ++ (fenceL ++ w4))).take 6).map Char.toLower ≠ pythonTag :=
      no_python_prefix (c :: s') (w3 ++ (fenceL ++ w4)) hs2 hRcons
    have hlead : stripLeadL (fencedWrap tag w1 w2 w3 w4 (c :: s')) =
        (c :: s') ++ (w3 ++ (fenceL ++ w4)) := by
      rcases htag with htag | htag <;> subst htag
      · rw [stripLeadL_eq, hW]
        rw [dropWhile_append_all _ hw1f, dropWhile_append_all _ fenceL_all_fence]
        simp only [List.nil_append]
        rw [dropWhile_append_all _ hw2f, hdropR, if_neg hpyW, hdropRs]
      · rw [stripLeadL_eq, hW]
        rw [dropWhile_append_all _ hw1f, dropWhile_append_all _ fenceL_all_fence]
        have hsplit : pythonTag ++ (w2 ++ ((c :: s') ++ (w3 ++ (fenceL ++ w4)))) =
            'p' :: ("ython".toList ++ (w2 ++ ((c :: s') ++ (w3 ++ (fenceL ++ w4))))) := rfl
        have hp : ¬ (isFenceChar 'p' = true) := by decide
        have h6 : pythonTag.length = 6 := rfl
        have hpos : pythonTag.map Char.toLower = pythonTag := by decide
        rw [hsplit, List.dropWhile_cons, if_neg hp, ← hsplit,
          List.take_left' h6, if_pos hpos, List.drop_left' h6,
          dropWhile_append_all _ hw2, hdropRs]
    unfold stripCodeL
    rw [hlead, hleadS, stripTrailL_append_all (c :: s') hRf]

/-- C8 counterexample: take the code string consisting of a backtick then
the letter x, wrapped with a python tag and no extra whitespace.  The
wrapped variant strips to that same two-character string, while the
unwrapped variant strips to just the letter x — the leading regex eats the
initial backtick of the bare string but not of the wrapped one, so the
claimed equality fails for this code string. -/
theorem c8_counterexample :
    "```python`x```".toList = fencedWrap pythonTag [] [] [] [] "`x".toList ∧
    stripCodeStr "```python`x```" = "`x" ∧
    stripCodeStr "`x" = "x" ∧
    stripCodeStr "```python`x```" ≠ stripCodeStr "`x" := by
  refine ⟨by decide, by decide, by decide, by decide⟩

theorem c8_amended_fence_strip_eq_witness :
    stripCodeL (fencedWrap pythonTag [' '] ['\n'] ['\n'] [] "print(1)".toList) =
      stripCodeL "print(1)".toList :=
  c8_amended_fence_strip_eq pythonTag [' '] ['\n'] ['\n'] [] "print(1)".toList
    (Or.inr rfl) (by decide) (by decide) (by decide) (by decide) (by decide) (by decide)
